import Mathlib

/-!
Verification of the middleware core of the user-management FastAPI service:
the fixed-window rate limiter (`app/core/middleware.py`, `RateLimitMiddleware`),
the transaction-id correlation context (`TransactionIdMiddleware` and the
context-var helpers), the JWT token codec and ownership check
(`app/auth/security.py`), and the application wiring (`app/main.py`).

The embedding is shallow: the Redis counter store is an association list from
keys to records, the per-request middleware body is a pure state transformer,
and the two awaited Redis round trips of the limiter (`get` then `set`/`incr`)
are split into two phases so that interleavings of concurrent requests can be
examined explicitly.
-/

/-! ## Counter store (Redis, as used by the limiter) -/

/-- One Redis value as the limiter uses it: an integer counter plus its
remaining TTL. `ttl = none` models a persistent key (no expiry, Redis TTL -1);
`ttl = some t` models `t` seconds remaining.  Time passage is not modelled:
`ttl` holds the remaining TTL of the window. -/
structure RedisRecord where
  value : Nat
  ttl : Option Nat
  deriving Repr, DecidableEq

/-- The shared counter store: keys to records. -/
abbrev RedisStore := List (String × RedisRecord)

/-- Read the full record stored at a key. -/
def lookupRecord : RedisStore → String → Option RedisRecord
  | [], _ => none
  | (k, r) :: rest, key => if k == key then some r else lookupRecord rest key

/-- `await redis.get(key)`: the counter value, or `none` when the key is
absent (or its record expired). -/
def redisGet (st : RedisStore) (key : String) : Option Nat :=
  (lookupRecord st key).map RedisRecord.value

/-- `await redis.set(key, v, ex=t)`: overwrite (or create) the record and set
its expiry to `t`. -/
def redisSetEx : RedisStore → String → Nat → Nat → RedisStore
  | [], key, v, t => [(key, ⟨v, some t⟩)]
  | (k, r) :: rest, key, v, t =>
    if k == key then (key, ⟨v, some t⟩) :: rest
    else (k, r) :: redisSetEx rest key v t

/-- `await redis.incr(key)`: increment the counter, leaving the TTL untouched;
on a missing key Redis creates it with value 1 and no expiry. -/
def redisIncr : RedisStore → String → RedisStore
  | [], key => [(key, ⟨1, none⟩)]
  | (k, r) :: rest, key =>
    if k == key then (k, ⟨r.value + 1, r.ttl⟩) :: rest
    else (k, r) :: redisIncr rest key

/-- `await redis.ttl(key)`: remaining TTL in seconds, `-1` for a key without
expiry, `-2` for a missing key. -/
def redisTtl (st : RedisStore) (key : String) : Int :=
  match lookupRecord st key with
  | none => -2
  | some r =>
    match r.ttl with
    | none => -1
    | some t => (t : Int)

/-! ## Rate limiter core (`RateLimitMiddleware.dispatch`, lines 48-61)

The body after identity resolution is
```
current_count = await redis.get(redis_key)
if current_count is None:
    await redis.set(redis_key, 1, ex=WINDOW)
elif int(current_count) < RATE_LIMIT:
    await redis.incr(redis_key)
else:
    ttl = await redis.ttl(redis_key)
    return JSONResponse(status_code=429, ...)
return await call_next(request)
```
`rlRead` is the first awaited round trip; `rlResume` is the continuation that
runs after it (decide, then write).  A whole sequential request is
`rateLimitStep`.  The split matters because each `await` is a suspension
point where another request's steps can interleave. -/

/-- Decision of the limiter for one request on one key. -/
inductive RLDecision where
  | allowed
  | rejected (status : Nat) (retryAfter : Int)
  deriving Repr, DecidableEq

/-- Phase 1: the awaited `redis.get(redis_key)`. -/
def rlRead (st : RedisStore) (key : String) : Option Nat :=
  redisGet st key

/-- Phase 2: the continuation after the read — compare the observed count
against the limit and write (create-with-expiry, or increment), or reject
with the remaining TTL. -/
def rlResume (limit window : Nat) (key : String) (observed : Option Nat)
    (st : RedisStore) : RLDecision × RedisStore :=
  match observed with
  | none => (.allowed, redisSetEx st key 1 window)
  | some c =>
    if c < limit then (.allowed, redisIncr st key)
    else (.rejected 429 (redisTtl st key), st)

/-- One sequential (uninterleaved) pass of the limiter body on one key. -/
def rateLimitStep (limit window : Nat) (key : String) (st : RedisStore) :
    RLDecision × RedisStore :=
  rlResume limit window key (rlRead st key) st

/-- `n` sequential requests for the same key, collecting each decision. -/
def runRequests (limit window : Nat) (key : String) :
    Nat → RedisStore → RedisStore × List RLDecision
  | 0, st => (st, [])
  | n + 1, st =>
    let s := rateLimitStep limit window key st
    let rest := runRequests limit window key n s.2
    (rest.1, s.1 :: rest.2)

/-! ## Interleaved execution of concurrent requests

Each request-handling task performs `rlRead` at its first suspension point and
`rlResume` at its second; between the two, other tasks may run.  A schedule is
a list of task indices: a task's first scheduled event performs its read, its
second performs its resume, later events are no-ops. -/

/-- Progress of one concurrent request task through the limiter body. -/
structure TaskState where
  observed : Option (Option Nat)
  decision : Option RLDecision
  deriving Repr, DecidableEq

/-- Run one scheduled event of task `i`. -/
def interleaveStep (limit window : Nat) (key : String)
    (s : RedisStore × List TaskState) (i : Nat) : RedisStore × List TaskState :=
  match s.2.get? i with
  | none => s
  | some t =>
    match t.observed with
    | none => (s.1, s.2.set i ⟨some (rlRead s.1 key), none⟩)
    | some obs =>
      match t.decision with
      | some _ => s
      | none =>
        let (d, st') := rlResume limit window key obs s.1
        (st', s.2.set i ⟨some obs, some d⟩)

/-- Execute a schedule of events of `n` concurrent tasks against one key. -/
def runSchedule (limit window : Nat) (key : String) (n : Nat)
    (sched : List Nat) (st : RedisStore) : RedisStore × List TaskState :=
  sched.foldl (interleaveStep limit window key) (st, List.replicate n ⟨none, none⟩)

/-- How many of the tasks ended allowed. -/
def allowedCount (ts : List TaskState) : Nat :=
  (ts.filter fun t => t.decision == some RLDecision.allowed).length

/-! ## JWT payloads and the jose codec (`app/auth/security.py`)

A payload is an association list of claims; values are strings or integers
(the `exp` claim is an integer timestamp).  `jwt.encode(payload, secret,
algorithm)` is modelled as wrapping the payload with the signing secret;
`jwt.decode(token, secret, algorithms)` checks the signature and, when an
`exp` claim is present, its expiry — python-jose does not require an `exp`
claim, a payload without one passes validation.  A structurally malformed
token string is the `malformed` constructor; the empty header value is
`malformed ""`. -/

/-- One claim value of the JWT payload dictionary. -/
inductive ClaimVal where
  | str (s : String)
  | int (n : Int)
  deriving Repr, DecidableEq

/-- A JWT payload / principal dictionary: claim names to values. -/
abbrev ClaimMap := List (String × ClaimVal)

/-- Python `d.get(k)` on a claim dictionary. -/
def lookupClaim : ClaimMap → String → Option ClaimVal
  | [], _ => none
  | (k, v) :: rest, key => if k == key then some v else lookupClaim rest key

/-- Python `d.update({k: v})`: replace the value when the key exists,
otherwise append the new entry at the end. -/
def dictUpdate (m : ClaimMap) (key : String) (v : ClaimVal) : ClaimMap :=
  match m with
  | [] => [(key, v)]
  | (k, w) :: rest =>
    if k == key then (k, v) :: rest
    else (k, w) :: dictUpdate rest key v

/-- A JWT string: either structurally malformed (including the empty string)
or a signed encoding of a payload under a secret. -/
inductive Token where
  | malformed (raw : String)
  | signed (payload : ClaimMap) (secret : String)
  deriving Repr, DecidableEq

/-- Python truthiness of the token string: only the empty string is falsy. -/
def Token.isEmpty : Token → Bool
  | .malformed "" => true
  | _ => false

/-- `jose.jwt.encode(payload, secret, algorithm)`. -/
def jwtEncode (payload : ClaimMap) (secret : String) : Token :=
  .signed payload secret

/-- `jose.jwt.decode(token, secret, algorithms)` at clock time `now`:
raises `JWTError` (here: `none`) on a malformed token or a signature that
does not verify; validates `exp` only when the claim is present (jose does
not require it), treating `exp < now` as expired; a string-valued `exp` goes
through python `int()` (decimal parse) and fails validation when unparsable.
Audience/issuer claims do not occur in this application and are not
modelled. -/
def jwtDecode (tok : Token) (secret : String) (now : Int) : Option ClaimMap :=
  match tok with
  | .malformed _ => none
  | .signed payload s =>
    if s == secret then
      match lookupClaim payload "exp" with
      | none => some payload
      | some (.int e) => if e < now then none else some payload
      | some (.str t) =>
        match t.toInt? with
        | none => none
        | some e => if e < now then none else some payload
    else none

/-- `timedelta or timedelta(minutes=int(ACCESS_TOKEN_EXPIRE_MINUTES))`:
python `or` takes the default when `expires_delta` is `None` or the falsy
zero delta.  Durations are in seconds; `defaultMinutes` is the configured
`ACCESS_TOKEN_EXPIRE_MINUTES`. -/
def effectiveDelta (expires_delta : Option Int) (defaultMinutes : Int) : Int :=
  match expires_delta with
  | none => defaultMinutes * 60
  | some d => if d == 0 then defaultMinutes * 60 else d

/-- `create_access_token(data, expires_delta)` issued at clock time `now`
under `secret`: copy the payload, set `exp = now + delta`, sign. -/
def create_access_token (data : ClaimMap) (expires_delta : Option Int)
    (now : Int) (defaultMinutes : Int) (secret : String) : Token :=
  let expire := now + effectiveDelta expires_delta defaultMinutes
  jwtEncode (dictUpdate data "exp" (.int expire)) secret

/-- `verify_token(token)` at clock time `now` under `secret`: `None` for a
falsy token string, otherwise decode, with every `JWTError` caught and turned
into `None`. -/
def verify_token (token : Token) (secret : String) (now : Int) :
    Option ClaimMap :=
  if token.isEmpty then none
  else jwtDecode token secret now

/-! ## Ownership check and the user endpoint
(`app/auth/security.py` lines 80-111, `app/api/users.py` get_user_by_id) -/

/-- `raise HTTPException(status_code=..., detail=...)`. -/
structure HTTPException where
  status_code : Nat
  detail : String
  deriving Repr, DecidableEq

/-- `allow_access(id, current_user)`: allowed iff `id == current_user.get('id', '')`
(a missing `id` claim defaults to the empty string; comparison of a python
string with a non-string value is unequal). -/
def allow_access (id : String) (current_user : ClaimMap) : Bool :=
  if ClaimVal.str id != ((lookupClaim current_user "id").getD (.str "")) then
    false
  else true

/-- `authorize(id, current_user)`: return the user, or raise 401
`Unauthorised action` when access is not allowed. -/
def authorize (id : String) (current_user : ClaimMap) :
    Except HTTPException ClaimMap :=
  if allow_access id current_user then .ok current_user
  else .error ⟨401, "Unauthorised action"⟩

/-- The `get_user_by_id` endpoint body: authorize first, then look the user
up (`db` stands for `user_service.get_user_by_id`), raising 404 when the
lookup finds nothing. -/
def get_user_by_id (id : String) (current_user : ClaimMap)
    (db : String → Option String) : Except HTTPException String :=
  match authorize id current_user with
  | .error e => .error e
  | .ok _ =>
    match db id with
    | none => .error ⟨404, "User not found for id: " ++ id⟩
    | some u => .ok u

/-! ## Correlation context (`app/core/middleware.py` lines 11-33)

`transaction_id_var` is a ContextVar with default `None`; its value for one
request execution is the `TransactionSlot`.  `uuid.uuid4()` is
nondeterministic, so the minted value is passed in explicitly as
`freshUuid`. -/

/-- The per-execution value of `transaction_id_var` (`none` = unset/default). -/
abbrev TransactionSlot := Option String

/-- `get_transaction_id()`: `transaction_id_var.get() or "no-transaction"` —
python `or` coalesces both `None` and the falsy empty string into the
sentinel. -/
def get_transaction_id (slot : TransactionSlot) : String :=
  match slot with
  | none => "no-transaction"
  | some t => if t == "" then "no-transaction" else t

/-- `set_transaction_id(transaction_id=None)`: mint a fresh uuid4 when called
with `None`, bind the id into the slot, return it. -/
def set_transaction_id (transaction_id : Option String) (freshUuid : String) :
    String × TransactionSlot :=
  match transaction_id with
  | none => (freshUuid, some freshUuid)
  | some t => (t, some t)

/-! ## Rate limiter identity resolution and full dispatch
(`RateLimitMiddleware.dispatch`, lines 37-61) -/

/-- Modelled from the spec: the module `app.core.constants` that the
middleware imports (`RATE_LIMIT_POST`, `RATE_LIMIT_OTHER`, `WINDOW`) is not
among the sources; the spec describes two configured thresholds — a stricter
one for mutating (POST) requests and a looser one for reads — and a fixed
window length `W`.  `secret` is the configured `SECRET_KEY` and `now` the
clock time used when verifying the bearer token. -/
structure RLConfig where
  ratelimitPost : Nat
  ratelimitOther : Nat
  window : Nat
  secret : String
  now : Int
  deriving Repr, DecidableEq

/-- Python f-string rendering of `user_payload.get("id")` into the Redis key
(`None` when the claim is absent). -/
def pyFormat : Option ClaimVal → String
  | none => "None"
  | some (.str s) => s
  | some (.int n) => toString n

/-- The identity-resolution half of the limiter: with a truthy token string,
verify it — on rejection the middleware returns `call_next` at once (`none`
here); on success the identity is the payload's `id` claim.  With no token,
the identity is `request.client.host`. -/
def resolveIdentifier (cfg : RLConfig) (authToken : Token)
    (clientHost : String) : Option String :=
  if !authToken.isEmpty then
    match verify_token authToken cfg.secret cfg.now with
    | none => none
    | some payload => some (pyFormat (lookupClaim payload "id"))
  else some clientHost

/-- Outcome of one middleware dispatch: the request is forwarded to
`call_next`, or answered with a rejection response. -/
inductive DispatchResult where
  | forwarded
  | rejected (status : Nat) (retryAfter : Int)
  deriving Repr, DecidableEq

/-- `RateLimitMiddleware.dispatch`: `authToken` is the Authorization header
value with `"Bearer "` stripped (`malformed ""` when the header is absent or
empty).  An unverifiable token forwards the request immediately, touching no
counter; otherwise the limiter body (`rateLimitStep`) runs on
`"ratelimit:" + identifier` with `RATE_LIMIT_POST` for POST requests and
`RATE_LIMIT_OTHER` for every other method. -/
def RateLimitMiddleware.dispatch (cfg : RLConfig) (authToken : Token)
    (clientHost method : String) (st : RedisStore) :
    DispatchResult × RedisStore :=
  match resolveIdentifier cfg authToken clientHost with
  | none => (.forwarded, st)
  | some ident =>
    let RATE_LIMIT := if method == "POST" then cfg.ratelimitPost
      else cfg.ratelimitOther
    match rateLimitStep RATE_LIMIT cfg.window ("ratelimit:" ++ ident) st with
    | (.allowed, st') => (.forwarded, st')
    | (.rejected s t, st') => (.rejected s t, st')

/-! ## Responses and the application pipeline (`app/main.py`) -/

/-- An HTTP response: status and headers. -/
structure Response where
  status : Nat
  headers : List (String × String)
  deriving Repr, DecidableEq

/-- An inbound HTTP request as the middleware observes it. -/
structure Request where
  headers : List (String × String)
  clientHost : String
  method : String
  deriving Repr, DecidableEq

/-- `headers.get(k)` (case handling is not modelled; keys are used with one
spelling throughout). -/
def getHeader (hs : List (String × String)) (key : String) : Option String :=
  match hs with
  | [] => none
  | (k, v) :: rest => if k == key then some v else getHeader rest key

/-- `response.headers[k] = v`: replace or append. -/
def setHeader (hs : List (String × String)) (key v : String) :
    List (String × String) :=
  match hs with
  | [] => [(key, v)]
  | (k, w) :: rest =>
    if k == key then (key, v) :: rest
    else (k, w) :: setHeader rest key v

/-- `TransactionIdMiddleware.dispatch`: bind the inbound `X-Transaction-ID`
header (minting a fresh uuid when it is absent), run the inner handler, then
stamp `X-Transaction-ID` with `get_transaction_id()` on the response. -/
def TransactionIdMiddleware.dispatch (freshUuid : String)
    (handler : Request → Response) (req : Request) : Response :=
  let bound := set_transaction_id (getHeader req.headers "X-Transaction-ID")
    freshUuid
  let resp := handler req
  { resp with
    headers := setHeader resp.headers "X-Transaction-ID"
      (get_transaction_id bound.2) }

/-- Starlette `CORSMiddleware(allow_origins=["*"], ...)` on a plain (non
preflight) request: adds `access-control-allow-origin` when the request
carries an `Origin` header and otherwise leaves the response alone; it never
touches `X-Transaction-ID`. -/
def corsWrap (handler : Request → Response) (req : Request) : Response :=
  let resp := handler req
  match getHeader req.headers "Origin" with
  | none => resp
  | some _ =>
    { resp with
      headers := setHeader resp.headers "access-control-allow-origin" "*" }

/-- The application pipeline wired in `app/main.py`: the only
`add_middleware` call registers `CORSMiddleware` — neither
`TransactionIdMiddleware` nor `RateLimitMiddleware` is added to the app —
so a response is the routed handler's response passed through CORS alone. -/
def appHandle (routeHandler : Request → Response) (req : Request) : Response :=
  corsWrap routeHandler req

/-! ## Store lemmas -/

lemma lookupRecord_setEx_self (st : RedisStore) (key : String) (v t : Nat) :
    lookupRecord (redisSetEx st key v t) key = some ⟨v, some t⟩ := by
  induction st with
  | nil => simp [redisSetEx, lookupRecord]
  | cons p rest ih =>
    obtain ⟨k, r⟩ := p
    by_cases hk : k = key
    · simp [redisSetEx, lookupRecord, hk]
    · simp [redisSetEx, lookupRecord, hk, ih]

lemma lookupRecord_incr_self (st : RedisStore) (key : String) (r : RedisRecord)
    (hr : lookupRecord st key = some r) :
    lookupRecord (redisIncr st key) key = some ⟨r.value + 1, r.ttl⟩ := by
  induction st with
  | nil => simp [lookupRecord] at hr
  | cons p rest ih =>
    obtain ⟨k, w⟩ := p
    by_cases hk : k = key
    · simp [lookupRecord, hk] at hr
      simp [redisIncr, lookupRecord, hk, hr]
    · simp [lookupRecord, hk] at hr
      simp [redisIncr, lookupRecord, hk, ih hr]

lemma lookupRecord_incr_other (st : RedisStore) (key k' : String)
    (hne : k' ≠ key) :
    lookupRecord (redisIncr st key) k' = lookupRecord st k' := by
  have hne' : key ≠ k' := fun h => hne h.symm
  induction st with
  | nil => simp [redisIncr, lookupRecord, hne']
  | cons p rest ih =>
    obtain ⟨k, w⟩ := p
    by_cases hk : k = key
    · subst hk
      simp [redisIncr, lookupRecord, hne']
    · simp [redisIncr, lookupRecord, hk, ih]

/-! ## Sequential behaviour of the limiter body -/

lemma runRequests_succ (limit window : Nat) (key : String) (n : Nat)
    (st : RedisStore) :
    runRequests limit window key (n + 1) st
      = ((runRequests limit window key n
            (rateLimitStep limit window key st).2).1,
          (rateLimitStep limit window key st).1 ::
            (runRequests limit window key n
              (rateLimitStep limit window key st).2).2) := rfl

lemma runRequests_active (limit window : Nat) (key : String) (j : Nat) :
    ∀ (c : Nat) (st : RedisStore),
      lookupRecord st key = some ⟨c, some window⟩ → c + j ≤ limit →
      (runRequests limit window key j st).2
          = List.replicate j RLDecision.allowed ∧
        lookupRecord (runRequests limit window key j st).1 key
          = some ⟨c + j, some window⟩ := by
  induction j with
  | zero =>
    intro c st hrec _
    simp [runRequests, hrec]
  | succ j ih =>
    intro c st hrec hcj
    have hget : redisGet st key = some c := by simp [redisGet, hrec]
    have hc : c < limit := by omega
    have hstep : rateLimitStep limit window key st
        = (RLDecision.allowed, redisIncr st key) := by
      simp [rateLimitStep, rlRead, hget, rlResume, hc]
    have hrec' : lookupRecord (redisIncr st key) key
        = some ⟨c + 1, some window⟩ :=
      lookupRecord_incr_self st key ⟨c, some window⟩ hrec
    have hih := ih (c + 1) (redisIncr st key) hrec' (by omega)
    have harith : c + 1 + j = c + (j + 1) := by omega
    rw [harith] at hih
    rw [runRequests_succ, hstep]
    simp [hih.1, hih.2, List.replicate_succ]

lemma runRequests_reject (limit window : Nat) (key : String) (j : Nat) :
    ∀ (c : Nat) (st : RedisStore),
      lookupRecord st key = some ⟨c, some window⟩ → c + j = limit →
      (runRequests limit window key (j + 1) st).2
          = List.replicate j RLDecision.allowed
            ++ [RLDecision.rejected 429 (window : Int)] ∧
        lookupRecord (runRequests limit window key (j + 1) st).1 key
          = some ⟨limit, some window⟩ := by
  induction j with
  | zero =>
    intro c st hrec hc
    have hget : redisGet st key = some c := by simp [redisGet, hrec]
    have hnc : ¬ c < limit := by omega
    have httl : redisTtl st key = (window : Int) := by simp [redisTtl, hrec]
    have hc' : c = limit := by omega
    subst hc'
    simp [runRequests, rateLimitStep, rlRead, hget, rlResume, hnc, httl, hrec]
  | succ j ih =>
    intro c st hrec hcj
    have hget : redisGet st key = some c := by simp [redisGet, hrec]
    have hc : c < limit := by omega
    have hstep : rateLimitStep limit window key st
        = (RLDecision.allowed, redisIncr st key) := by
      simp [rateLimitStep, rlRead, hget, rlResume, hc]
    have hrec' : lookupRecord (redisIncr st key) key
        = some ⟨c + 1, some window⟩ :=
      lookupRecord_incr_self st key ⟨c, some window⟩ hrec
    have hih := ih (c + 1) (redisIncr st key) hrec' (by omega)
    rw [runRequests_succ, hstep]
    simp [hih.1, hih.2, List.replicate_succ]

/-- C2: for an identity key with no counter record, the first
`limit(method_class)` sequential requests of the window are all allowed —
the first creates the record with count 1 and TTL `W`, each later one
increments it (after `k` requests the record reads `(k, W)`) — and the
`limit + 1`-th request is rejected with status 429 carrying the remaining
TTL as the retry hint. -/
theorem sequential_rate_limit_allows_then_rejects
    (limit window k : Nat) (key : String) (st : RedisStore)
    (hl : 0 < limit) (habs : lookupRecord st key = none)
    (hk1 : 1 ≤ k) (hk2 : k ≤ limit) :
    (runRequests limit window key (limit + 1) st).2
        = List.replicate limit RLDecision.allowed
          ++ [RLDecision.rejected 429 (window : Int)] ∧
      lookupRecord (runRequests limit window key k st).1 key
        = some ⟨k, some window⟩ := by
  have hget : redisGet st key = none := by simp [redisGet, habs]
  have hstep : rateLimitStep limit window key st
      = (RLDecision.allowed, redisSetEx st key 1 window) := by
    simp [rateLimitStep, rlRead, hget, rlResume]
  have hrec1 : lookupRecord (redisSetEx st key 1 window) key
      = some ⟨1, some window⟩ := lookupRecord_setEx_self st key 1 window
  constructor
  · obtain ⟨L, rfl⟩ : ∃ L, limit = L + 1 := ⟨limit - 1, by omega⟩
    have hrej := runRequests_reject (L + 1) window key L 1
      (redisSetEx st key 1 window) hrec1 (by omega)
    rw [runRequests_succ, hstep]
    simp [hrej.1, List.replicate_succ]
  · obtain ⟨K, rfl⟩ : ∃ K, k = K + 1 := ⟨k - 1, by omega⟩
    have hact := runRequests_active limit window key K 1
      (redisSetEx st key 1 window) hrec1 (by omega)
    have harith : 1 + K = K + 1 := by omega
    rw [harith] at hact
    rw [runRequests_succ, hstep]
    simp [hact.2]

/-- Witness for C2 at `limit = 2`, `window = 60`, key `ratelimit:1.2.3.4`,
the empty store and `k = 2`. -/
theorem sequential_rate_limit_allows_then_rejects_witness :
    (runRequests 2 60 "ratelimit:1.2.3.4" 3 []).2
        = List.replicate 2 RLDecision.allowed
          ++ [RLDecision.rejected 429 ((60 : Nat) : Int)] ∧
      lookupRecord (runRequests 2 60 "ratelimit:1.2.3.4" 2 []).1
          "ratelimit:1.2.3.4"
        = some ⟨2, some 60⟩ :=
  sequential_rate_limit_allows_then_rejects 2 60 2 "ratelimit:1.2.3.4" []
    (by decide) rfl (by decide) (by decide)

/-- C9: frame property of one limiter transition on an active record: when
the observed count is below the limit the step is exactly the allowed
decision plus `redisIncr` — which bumps the count by one, leaves the record's
TTL untouched and leaves every other key's record unchanged — and when the
count has reached the limit the step rejects and returns the store entirely
unchanged (no increment). -/
theorem rate_limit_frame_property
    (limit window : Nat) (key k' : String) (st : RedisStore) (r : RedisRecord)
    (hr : lookupRecord st key = some r) (hne : k' ≠ key) :
    (r.value < limit →
      rateLimitStep limit window key st
          = (RLDecision.allowed, redisIncr st key) ∧
        lookupRecord (redisIncr st key) key = some ⟨r.value + 1, r.ttl⟩ ∧
        lookupRecord (redisIncr st key) k' = lookupRecord st k') ∧
    (limit ≤ r.value →
      rateLimitStep limit window key st
        = (RLDecision.rejected 429 (redisTtl st key), st)) := by
  have hget : redisGet st key = some r.value := by simp [redisGet, hr]
  constructor
  · intro hlt
    exact ⟨by simp [rateLimitStep, rlRead, hget, rlResume, hlt],
      lookupRecord_incr_self st key r hr,
      lookupRecord_incr_other st key k' hne⟩
  · intro hge
    have hnc : ¬ r.value < limit := by omega
    simp [rateLimitStep, rlRead, hget, rlResume, hnc]

/-- Witness for C9: an active record `(1, 60s)` under limit 2 (allowed
branch) and the same record under limit 1 (rejected branch). -/
theorem rate_limit_frame_property_witness :
    (rateLimitStep 2 60 "k" [("k", ⟨1, some 60⟩)]
        = (RLDecision.allowed, redisIncr [("k", ⟨1, some 60⟩)] "k") ∧
      lookupRecord (redisIncr [("k", ⟨1, some 60⟩)] "k") "k"
        = some ⟨2, some 60⟩ ∧
      lookupRecord (redisIncr [("k", ⟨1, some 60⟩)] "k") "other"
        = lookupRecord [("k", ⟨1, some 60⟩)] "other") ∧
    rateLimitStep 1 60 "k" [("k", ⟨1, some 60⟩)]
      = (RLDecision.rejected 429 (redisTtl [("k", ⟨1, some 60⟩)] "k"),
        [("k", ⟨1, some 60⟩)]) :=
  ⟨(rate_limit_frame_property 2 60 "k" "other" [("k", ⟨1, some 60⟩)]
      ⟨1, some 60⟩ rfl (by decide)).1 (by decide),
    (rate_limit_frame_property 1 60 "k" "other" [("k", ⟨1, some 60⟩)]
      ⟨1, some 60⟩ rfl (by decide)).2 (by decide)⟩

/-- C1: the limiter's read-then-write is not atomic — `redis.get` and the
`redis.set`/`redis.incr` that follows are separate awaited operations — so
two concurrent requests for the same key, both suspended after their read
(schedule read₀, read₁, write₀, write₁), are both allowed under
`limit(method_class) = 1`: 2 allowed requests where the claim demands
exactly 1. -/
theorem rate_limiter_race_two_allowed :
    allowedCount (runSchedule 1 60 "ratelimit:u1" 2 [0, 1, 0, 1] []).2 = 2 := by
  rfl

/-! ## Claim-map lemmas -/

lemma dictUpdate_absent (m : ClaimMap) (key : String) (v : ClaimVal)
    (h : lookupClaim m key = none) :
    dictUpdate m key v = m ++ [(key, v)] := by
  induction m with
  | nil => rfl
  | cons p rest ih =>
    obtain ⟨k, w⟩ := p
    by_cases hk : k = key
    · simp [lookupClaim, hk] at h
    · simp [lookupClaim, hk] at h
      simp [dictUpdate, hk, ih h]

lemma lookupClaim_append_absent (m : ClaimMap) (key : String) (v : ClaimVal)
    (h : lookupClaim m key = none) :
    lookupClaim (m ++ [(key, v)]) key = some v := by
  induction m with
  | nil => simp [lookupClaim]
  | cons p rest ih =>
    obtain ⟨k, w⟩ := p
    by_cases hk : k = key
    · simp [lookupClaim, hk] at h
    · simp [lookupClaim, hk] at h
      simp [lookupClaim, hk, ih h]

/-! ## Token codec theorems -/

/-- C5: round trip — for a payload with no reserved `exp` claim and a
positive effective ttl (supplied, or the configured default when the
argument is `None` or zero), verifying a freshly issued token succeeds
and returns exactly the input claims plus an `exp` stamp `now + ttl`,
which lies strictly in the future. -/
theorem token_roundtrip (data : ClaimMap) (expires_delta : Option Int)
    (defaultMinutes now : Int) (secret : String)
    (hexp : lookupClaim data "exp" = none)
    (hpos : 0 < effectiveDelta expires_delta defaultMinutes) :
    verify_token
        (create_access_token data expires_delta now defaultMinutes secret)
        secret now
      = some (data ++ [("exp",
          ClaimVal.int (now + effectiveDelta expires_delta defaultMinutes))]) ∧
    now < now + effectiveDelta expires_delta defaultMinutes := by
  have hnlt : ¬ (now + effectiveDelta expires_delta defaultMinutes < now) := by
    omega
  refine ⟨?_, by omega⟩
  have hupd : dictUpdate data "exp"
        (.int (now + effectiveDelta expires_delta defaultMinutes))
      = data
        ++ [("exp", .int (now + effectiveDelta expires_delta defaultMinutes))] :=
    dictUpdate_absent data "exp" _ hexp
  have hlook := lookupClaim_append_absent data "exp"
    (.int (now + effectiveDelta expires_delta defaultMinutes)) hexp
  simp [create_access_token, jwtEncode, verify_token, Token.isEmpty,
    jwtDecode, hupd, hlook, hnlt]

/-- Witness for C5: issue at time 100 with the default ttl of 30 minutes. -/
theorem token_roundtrip_witness :
    verify_token
        (create_access_token [("id", ClaimVal.str "u1")] none 100 30 "s")
        "s" 100
      = some [("id", ClaimVal.str "u1"), ("exp", ClaimVal.int 1900)] ∧
    (100 : Int) < 1900 :=
  token_roundtrip [("id", ClaimVal.str "u1")] none 30 100 "s"
    (by decide) (by decide)

/-- C6 (amended): `verify_token` yields the single uniform rejection value
`none` — never an exception, the `JWTError` is caught — for a structurally
malformed token, for a token signed under a different secret, and for a
token whose `exp` lies in the past, indistinguishably across those causes;
but a well-signed token carrying no `exp` claim at all is accepted and its
claims are returned (python-jose does not require `exp`). -/
theorem verify_token_uniform_rejection (raw : String)
    (p1 p2 p3 : ClaimMap) (s s' : String) (now e : Int)
    (hs : s' ≠ s) (hexp3 : lookupClaim p3 "exp" = some (ClaimVal.int e))
    (he : e < now) (hexp2 : lookupClaim p2 "exp" = none) :
    verify_token (Token.malformed raw) s now = none ∧
    verify_token (Token.signed p1 s') s now = none ∧
    verify_token (Token.signed p3 s) s now = none ∧
    verify_token (Token.signed p2 s) s now = some p2 := by
  refine ⟨?_, ?_, ?_, ?_⟩
  · simp [verify_token, jwtDecode]
  · simp [verify_token, Token.isEmpty, jwtDecode, hs]
  · simp [verify_token, Token.isEmpty, jwtDecode, hexp3, he]
  · simp [verify_token, Token.isEmpty, jwtDecode, hexp2]

/-- Witness for C6 (amended) at concrete tokens and clock time 100. -/
theorem verify_token_uniform_rejection_witness :
    verify_token (Token.malformed "garbage") "secret-key" 100 = none ∧
    verify_token (Token.signed [("id", ClaimVal.str "u1")] "other-key")
        "secret-key" 100 = none ∧
    verify_token (Token.signed [("exp", ClaimVal.int 10)] "secret-key")
        "secret-key" 100 = none ∧
    verify_token (Token.signed [("id", ClaimVal.str "u1")] "secret-key")
        "secret-key" 100 = some [("id", ClaimVal.str "u1")] :=
  verify_token_uniform_rejection "garbage" [("id", ClaimVal.str "u1")]
    [("id", ClaimVal.str "u1")] [("exp", ClaimVal.int 10)]
    "secret-key" "other-key" 100 10
    (by decide) (by decide) (by decide) (by decide)

/-- C6 counterexample: a token correctly signed but with no `exp` claim is
not rejected — `verify_token` accepts it and returns its claims, so the
claimed fourth rejection case fails on the code. -/
theorem verify_token_accepts_missing_exp :
    verify_token (Token.signed [("id", ClaimVal.str "u1")] "s") "s" 0
        = some [("id", ClaimVal.str "u1")] ∧
      verify_token (Token.signed [("id", ClaimVal.str "u1")] "s") "s" 0
        ≠ none := by
  refine ⟨rfl, ?_⟩
  decide

/-! ## Ownership check and endpoint theorems -/

/-- C4: for a principal whose token payload carries the string id `pid`,
`allow_access` grants access iff `pid` equals the resource owner id; every
mismatch makes `authorize` raise the 401 `Unauthorised action` failure; and
the `get_user_by_id` endpoint rejects a mismatched principal with that same
401 for every possible user lookup — before and independent of the lookup,
never downgraded to a 404 not-found. -/
theorem ownership_check_matches_id (r pid : String) (p : ClaimMap)
    (db : String → Option String)
    (hid : lookupClaim p "id" = some (ClaimVal.str pid)) :
    (allow_access r p = true ↔ pid = r) ∧
    (pid ≠ r →
      authorize r p = Except.error ⟨401, "Unauthorised action"⟩) ∧
    (pid ≠ r →
      get_user_by_id r p db = Except.error ⟨401, "Unauthorised action"⟩) := by
  have hget : (lookupClaim p "id").getD (ClaimVal.str "") = ClaimVal.str pid := by
    simp [hid]
  have hiff : allow_access r p = true ↔ pid = r := by
    by_cases hpr : pid = r
    · subst hpr
      simp [allow_access, hget, bne_self_eq_false]
    · have hv : ClaimVal.str r ≠ ClaimVal.str pid := by
        intro hh
        exact hpr (ClaimVal.str.inj hh).symm
      simp [allow_access, hget, hpr, hv, bne_iff_ne]
  refine ⟨hiff, ?_, ?_⟩ <;> intro hne
  · have hfalse : allow_access r p = false := by
      cases hb : allow_access r p with
      | true => exact absurd (hiff.mp hb) hne
      | false => rfl
    simp [authorize, hfalse]
  · have hfalse : allow_access r p = false := by
      cases hb : allow_access r p with
      | true => exact absurd (hiff.mp hb) hne
      | false => rfl
    simp [get_user_by_id, authorize, hfalse]

/-- The user lookup that finds nobody (stands for the persistent store). -/
def dbEmpty : String → Option String := fun _ => none

/-- Witness for C4: principal `u1` against owner id `u2`, over a store in
which the user does not even exist — still 401, not 404. -/
theorem ownership_check_matches_id_witness :
    (allow_access "u2" [("id", ClaimVal.str "u1")] = true ↔ "u1" = "u2") ∧
    authorize "u2" [("id", ClaimVal.str "u1")]
      = Except.error ⟨401, "Unauthorised action"⟩ ∧
    get_user_by_id "u2" [("id", ClaimVal.str "u1")] dbEmpty
      = Except.error ⟨401, "Unauthorised action"⟩ :=
  have h := ownership_check_matches_id "u2" "u1" [("id", ClaimVal.str "u1")]
    dbEmpty (by decide)
  ⟨h.1, h.2.1 (by decide), h.2.2 (by decide)⟩

/-- C10: when the principal's payload has no `id` claim, `.get('id', '')`
defaults to the empty string, so `allow_access` grants access exactly when
the resource owner id is the empty string. -/
theorem allow_access_missing_id_empty_iff (r : String) (p : ClaimMap)
    (hmiss : lookupClaim p "id" = none) :
    allow_access r p = true ↔ r = "" := by
  have hget : (lookupClaim p "id").getD (ClaimVal.str "") = ClaimVal.str "" := by
    simp [hmiss]
  by_cases hr : r = ""
  · subst hr
    simp [allow_access, hget, bne_self_eq_false]
  · have hv : ClaimVal.str r ≠ ClaimVal.str "" := by
      intro hh
      exact hr (ClaimVal.str.inj hh)
    simp [allow_access, hget, hr, hv, bne_iff_ne]

/-- Witness for C10: a payload with only a username claim is authorized for
owner id `""` and not for owner id `u1`. -/
theorem allow_access_missing_id_empty_iff_witness :
    (allow_access "" [("username", ClaimVal.str "bob")] = true
      ↔ ("" : String) = "") ∧
    (allow_access "u1" [("username", ClaimVal.str "bob")] = true
      ↔ "u1" = "") :=
  ⟨allow_access_missing_id_empty_iff "" [("username", ClaimVal.str "bob")]
      (by decide),
    allow_access_missing_id_empty_iff "u1" [("username", ClaimVal.str "bob")]
      (by decide)⟩

/-! ## Correlation context theorems -/

/-- C7 (amended): begin with a supplied nonempty inbound id binds it and
`current()` later returns exactly that id verbatim; begin with the supplied
empty-string id binds it verbatim (no fresh id is minted) but `current()`
then yields the sentinel, because the read coalesces falsy values; begin
with no inbound id mints and binds the fresh id; and `current()` with no id
bound returns the fixed sentinel `no-transaction` — both operations are
total, so reading never raises. -/
theorem transaction_id_binding (t freshA freshB : String) (ht : t ≠ "") :
    (set_transaction_id (some t) freshA = (t, some t) ∧
      get_transaction_id (set_transaction_id (some t) freshA).2 = t) ∧
    (set_transaction_id (some "") freshA = ("", some "") ∧
      get_transaction_id (set_transaction_id (some "") freshA).2
        = "no-transaction") ∧
    set_transaction_id none freshB = (freshB, some freshB) ∧
    get_transaction_id none = "no-transaction" := by
  refine ⟨⟨rfl, ?_⟩, ⟨rfl, rfl⟩, rfl, rfl⟩
  simp [set_transaction_id, get_transaction_id, ht]

/-- Witness for C7 (amended) at the inbound id `abc` and fresh uuids. -/
theorem transaction_id_binding_witness :
    (set_transaction_id (some "abc") "uuid-a" = ("abc", some "abc") ∧
      get_transaction_id (set_transaction_id (some "abc") "uuid-a").2
        = "abc") ∧
    (set_transaction_id (some "") "uuid-a" = ("", some "") ∧
      get_transaction_id (set_transaction_id (some "") "uuid-a").2
        = "no-transaction") ∧
    set_transaction_id none "uuid-b" = ("uuid-b", some "uuid-b") ∧
    get_transaction_id none = "no-transaction" :=
  transaction_id_binding "abc" "uuid-a" "uuid-b" (by decide)

/-- C7 counterexample: the supplied inbound id `""` is bound verbatim, yet
`current()` afterwards returns the sentinel instead of that id, so a
supplied id is not always returned verbatim. -/
theorem empty_transaction_id_not_echoed :
    set_transaction_id (some "") "uuid-1" = ("", some "") ∧
    get_transaction_id (set_transaction_id (some "") "uuid-1").2
      = "no-transaction" ∧
    "no-transaction" ≠ "" := by
  exact ⟨rfl, rfl, by decide⟩

/-! ## Rate-limit identity fallback theorems -/

/-- C3 (amended): a request whose bearer token fails verification is not
rejected by the limiter — but it does not fall back to the address identity
either: the middleware forwards it to `call_next` immediately with no
rate-limit accounting at all, leaving the counter store untouched. -/
theorem invalid_token_bypasses_rate_limit (cfg : RLConfig) (tok : Token)
    (host method : String) (st : RedisStore)
    (hne : tok.isEmpty = false)
    (hbad : verify_token tok cfg.secret cfg.now = none) :
    RateLimitMiddleware.dispatch cfg tok host method st
      = (DispatchResult.forwarded, st) := by
  simp [RateLimitMiddleware.dispatch, resolveIdentifier, hne, hbad]

/-- A concrete limiter configuration for the closed instances. -/
def cfgEx : RLConfig :=
  { ratelimitPost := 2, ratelimitOther := 5, window := 60,
    secret := "top-secret", now := 1000 }

/-- Witness for C3 (amended): a wrong-secret token is forwarded and the
store stays as it was. -/
theorem invalid_token_bypasses_rate_limit_witness :
    RateLimitMiddleware.dispatch cfgEx
        (Token.signed [("id", ClaimVal.str "u1")] "wrong-secret")
        "1.2.3.4" "POST" []
      = (DispatchResult.forwarded, []) :=
  invalid_token_bypasses_rate_limit cfgEx
    (Token.signed [("id", ClaimVal.str "u1")] "wrong-secret")
    "1.2.3.4" "POST" [] rfl (by decide)

/-- C3 counterexample: after dispatching a request carrying an unverifiable
token from address 1.2.3.4, no record exists under the address key
`ratelimit:1.2.3.4` — the request was forwarded without being counted
against the address-keyed quota, contrary to the claimed fallback. -/
theorem invalid_token_not_counted :
    RateLimitMiddleware.dispatch cfgEx
        (Token.signed [("id", ClaimVal.str "u1")] "wrong-secret")
        "1.2.3.4" "GET" []
      = (DispatchResult.forwarded, []) ∧
    lookupRecord
        (RateLimitMiddleware.dispatch cfgEx
          (Token.signed [("id", ClaimVal.str "u1")] "wrong-secret")
          "1.2.3.4" "GET" []).2
        "ratelimit:1.2.3.4"
      = none := by
  exact ⟨by decide, by decide⟩

/-! ## Application pipeline theorem -/

/-- A route handler returning a bare 200 response. -/
def exampleHandler : Request → Response := fun _ => ⟨200, []⟩

/-- A request that supplies an inbound correlation id. -/
def exampleRequest : Request :=
  ⟨[("X-Transaction-ID", "abc-123")], "1.2.3.4", "GET"⟩

/-- C8: the application wired in `app/main.py` registers only
`CORSMiddleware`, so even a request supplying an inbound correlation id
receives a response with no `X-Transaction-ID` header at all; had
`TransactionIdMiddleware` been registered, its dispatch would have stamped
the resolved id onto the response. -/
theorem app_response_missing_transaction_id :
    getHeader (appHandle exampleHandler exampleRequest).headers
        "X-Transaction-ID" = none ∧
    getHeader (TransactionIdMiddleware.dispatch "fresh-uuid" exampleHandler
        exampleRequest).headers "X-Transaction-ID" = some "abc-123" := by
  exact ⟨by decide, by decide⟩
